import Mathlib

/-!
Verification of the direct-messaging server (`server.py`) and protocol codec
(`ds_protocol.py`) of the a3-spring25 repository, as a shallow embedding.

The store file `users.json` maps usernames to account records
`{password, messages}`; each stored message record carries the keys
`message`, `from` or `recipient`, `timestamp` and `status` (see the schema
comment at the top of `server.py`).  JSON values are modelled by `JValue`;
message bodies and passwords are arbitrary JSON values, exactly as the
Python code stores whatever value arrived on the wire.  Timestamps are
modelled by their numeric value (a rational): the server always stores
`str(datetime.now().timestamp())`, a decimal literal, and `_read_all_messages`
sorts by `float(...)` of it.
-/

/-- JSON values, as produced by `json.loads` on a request line.  (Only the
constructors the server can actually receive; numbers are modelled by their
rational value.) -/
inductive JValue where
  | str (s : String)
  | num (q : Rat)
  | bool (b : Bool)
  | null
  | arr (xs : List JValue)
  | obj (fields : List (String × JValue))

/-- Deep equality of JSON values, modelling Python `==` / `!=` on decoded
JSON data (dicts compared as ordered field lists; the server's dicts come
from `json.loads`, which preserves key order, so this is faithful on the
values the server actually compares). -/
def jBeq : JValue → JValue → Bool
  | .str a, .str b => a == b
  | .num a, .num b => a == b
  | .bool a, .bool b => a == b
  | .null, .null => true
  | .arr [], .arr [] => true
  | .arr (x :: xs), .arr (y :: ys) => jBeq x y && jBeq (.arr xs) (.arr ys)
  | .obj [], .obj [] => true
  | .obj ((k, v) :: fs), .obj ((l, w) :: gs) =>
      k == l && jBeq v w && jBeq (.obj fs) (.obj gs)
  | _, _ => false

/-- Python truthiness (`if x:`) of a decoded JSON value. -/
def jTruthy : JValue → Bool
  | .str s => s ≠ ""
  | .num q => q ≠ 0
  | .bool b => b
  | .null => false
  | .arr xs => !xs.isEmpty
  | .obj fs => !fs.isEmpty

/-- The string carried by a JSON value, when it is a string. -/
def jStr? : JValue → Option String
  | .str s => some s
  | _ => none

/-- `dict.get(key)` on a JSON object / association list: first binding wins
(JSON object keys are unique, so this is the dict lookup). -/
def assocGet (fields : List (String × α)) (key : String) : Option α :=
  (fields.find? (fun p => p.1 = key)).map Prod.snd

/-- `dict[key] = value`: replace the value of an existing key in place,
otherwise append the new binding (Python dict insertion-order semantics). -/
def assocSet (fields : List (String × α)) (key : String) (val : α) :
    List (String × α) :=
  match fields with
  | [] => [(key, val)]
  | (k, v) :: t => if k = key then (key, val) :: t else (k, v) :: assocSet t key val

/-- `del dict[key]`: remove the binding of `key`.  Keys are unique in a
Python dict, so removing every binding of `key` coincides with `del`. -/
def assocDel (fields : List (String × α)) (key : String) : List (String × α) :=
  fields.filter (fun p => ¬ p.1 = key)

/-- Delivery status of a stored message record (`status` field). -/
inductive MsgStatus where
  | sent
  | unread
  | read
  deriving DecidableEq, Repr

/-- One stored message record of a mailbox, as kept in `users.json`:
`{'message': body, 'from'|'recipient': counterparty, 'timestamp': ts,
'status': st}`.  `fromPeer` records which of the two counterparty keys is
present (`true` for `from`). -/
structure StoredMsg where
  body : JValue
  counterparty : String
  fromPeer : Bool
  timestamp : Rat
  status : MsgStatus

/-- An account record of `users.json`: `{'password': pw, 'messages': [...]}`. -/
structure Account where
  password : JValue
  messages : List StoredMsg

/-- The decoded `users.json` document: username keyed account records. -/
abbrev UserStore := List (String × Account)

/-- The state of the backing `users.json` file.  `json users` is a complete
JSON document; `empty` is a truncated (zero-byte) file, on which `json.load`
raises `JSONDecodeError`. -/
inductive FileContent where
  | json (users : UserStore)
  | empty

/-- A message view as built by `_read_all_messages` / `_read_unread_messages`:
`{'from'|'recipient': counterparty, 'message': body, 'timestamp': ts}`. -/
structure MsgView where
  fromPeer : Bool
  counterparty : String
  body : JValue
  timestamp : Rat

/-- The view of a stored message (`mod_message` in the source). -/
def viewOf (m : StoredMsg) : MsgView :=
  { fromPeer := m.fromPeer, counterparty := m.counterparty,
    body := m.body, timestamp := m.timestamp }

/-- The status mutation `if message['status'] == 'unread': message['status'] = 'read'`
applied to one record. -/
def markRead1 (m : StoredMsg) : StoredMsg :=
  if m.status = .unread then { m with status := .read } else m

/-- `sorted(result, key=lambda x: float(x["timestamp"]))`: a stable sort of
the views by numeric timestamp (Python's `sorted` is stable, as is
insertion sort, and two stable sorts by the same key agree). -/
def sortViews (vs : List MsgView) : List MsgView :=
  List.insertionSort (fun a b => a.timestamp ≤ b.timestamp) vs

/-- `DSUServer._send_message(entry, username, recipient, timestamp)`
(server.py lines 286-318), acting on the store file.  The recipient is the
value of the request's `recipient` field: a non-string value never equals a
dict key, hence `existing_users.get(recipient)` misses; this is modelled by
an `Option String` recipient where `none` matches no account.  Returns
`none` when the operation raises (the file does not parse), otherwise the
new file content and the boolean result.  When sender and recipient
coincide, `fetched_sender` and `fetched_user` alias the same dict in the
source, so the `sent` record lands before the `unread` record in the one
mailbox; the sequential update below reproduces that. -/
def send_message (file : FileContent) (entry : JValue) (username : String)
    (recipient : Option String) (timestamp : Rat) :
    Option (FileContent × Bool) :=
  match file with
  | .empty => none
  | .json users =>
    match assocGet users username with
    | none => some (file, false)
    | some sender =>
      match recipient.bind (assocGet users) with
      | none => some (file, false)
      | some _ =>
        match recipient with
        | none => none
        | some rname =>
          let users1 := assocSet users username
            { sender with messages := sender.messages ++
                [{ body := entry, counterparty := rname, fromPeer := false,
                   timestamp := timestamp, status := .sent }] }
          match assocGet users1 rname with
          | none => none
          | some rcpt =>
            let users2 := assocSet users1 rname
              { rcpt with messages := rcpt.messages ++
                  [{ body := entry, counterparty := username, fromPeer := true,
                     timestamp := timestamp, status := .unread }] }
            some (.json users2, true)

/-- `DSUServer._read_all_messages(username)` (server.py lines 320-354).
Result `none` models the Python `return False` for a missing user (the file
is then untouched); otherwise the views of every stored message, sorted
ascending by timestamp, are returned, every `unread` record is flipped to
`read`, and the whole document is written back (`json.dump` inside the
`for`/`else`).  The outer `none` models an exception (unparseable file). -/
def read_all_messages (file : FileContent) (username : String) :
    Option (FileContent × Option (List MsgView)) :=
  match file with
  | .empty => none
  | .json users =>
    match assocGet users username with
    | none => some (file, none)
    | some acct =>
      let result := acct.messages.map viewOf
      let newMsgs := acct.messages.map markRead1
      let users' := assocSet users username { acct with messages := newMsgs }
      some (.json users', some (sortViews result))

/-- The value `_read_unread_messages` hands back: `False` when the user is
missing, otherwise the user's whole account record (the function returns
`fetched_user`, not the view list it built). -/
inductive UnreadResult where
  | falseVal
  | account (a : Account)

/-- `DSUServer._read_unread_messages(username)` (server.py lines 357-398).
For an existing user the source builds the `result` view list, flips the
statuses in memory, then opens the file in `'w'` mode inside the `for`/`else`
*without writing anything* — truncating it to zero bytes — and finally
returns `fetched_user`, the whole in-memory account record, discarding
`result`.  The trailing `if fetched_user:` re-lookup always succeeds, so the
lines after it (including the reference to the undefined name `password`)
are unreachable. -/
def read_unread_messages (file : FileContent) (username : String) :
    Option (FileContent × UnreadResult) :=
  match file with
  | .empty => none
  | .json users =>
    match assocGet users username with
    | none => some (file, .falseVal)
    | some acct =>
      let result := (acct.messages.filter (fun m => m.status = .unread)).map viewOf
      let newMsgs := acct.messages.map markRead1
      -- `result` is computed and then dropped by the source; `_ := result`
      -- keeps the computation visible in the model.
      let _ := result
      some (.empty, .account { acct with messages := newMsgs })

/-- Modelled from the spec: `server.py` calls `self._get_or_create_new_user`,
but no such method exists anywhere in the sources; the spec describes the
missing Mailbox Store operation as `authenticate_or_register(username,
password)` — "if username unknown, creates an Account with empty mailbox"
(auto-registration), persisted in the same critical section; if known it
returns the stored account so the caller can compare passwords.  The
caller's `if not fetched_user:` branch shows the operation returns a falsy
value exactly for a fresh username, hence the `Option Account` result. -/
def get_or_create_new_user (file : FileContent) (uname : String) (pw : JValue) :
    Option (FileContent × Option Account) :=
  match file with
  | .empty => none
  | .json users =>
    match assocGet users uname with
    | some acct => some (file, some acct)
    | none =>
      some (.json (assocSet users uname { password := pw, messages := [] }), none)

/-- Python `len(x)` on a decoded JSON value: defined for dicts, lists and
strings; `none` models the `TypeError` raised on numbers, booleans, `None`. -/
def pyLen : JValue → Option Nat
  | .obj fs => some fs.length
  | .arr xs => some xs.length
  | .str s => some s.length
  | _ => none

/-- Substring test, modelling Python `needle in haystack` on strings. -/
def strContainsSub (hay needle : String) : Bool :=
  hay.toList.tails.any (fun t => needle.toList.isPrefixOf t)

/-- Python `key in x` on a decoded JSON value: key membership for dicts,
element equality for lists, substring test for strings; `none` models the
`TypeError` raised on numbers, booleans, `None`. -/
def pyContainsKey (v : JValue) (key : String) : Option Bool :=
  match v with
  | .obj fs => some (assocGet fs key).isSome
  | .arr xs => some (xs.any (fun x => jBeq x (.str key)))
  | .str s => some (strContainsSub s key)
  | _ => none

/-- `all(field in av for field in ['username', 'password'])` with Python's
short-circuit evaluation. -/
def pyAll2 (av : JValue) : Option Bool := do
  let u ← pyContainsKey av "username"
  if u then pyContainsKey av "password" else pure false

/-- Python truthiness of `current_user_token` (a `str` or `None`). -/
def tokenTruthy : Option String → Bool
  | some t => t != ""
  | none => false

/-- `token == current_user_token`: the request's decoded `token` value
against the connection's remembered token (`None` when unauthenticated).
`json.loads` turns JSON `null` into `None`, and `None == None` holds;
any non-string JSON value is never `==` to a Python `str`. -/
def pyEqTok : JValue → Option String → Bool
  | .str s, some t => s == t
  | .null, none => true
  | _, _ => false

/-- `token in self.sessions`: dict-key membership.  Session keys are the
generated token strings, so no non-string value is a member.  (In the
source this is only ever evaluated after `token == current_user_token`
succeeded, so the value here is a string or `null`.) -/
def sessionsHasB (v : JValue) (ss : List (String × String)) : Bool :=
  match v with
  | .str s => (assocGet ss s).isSome
  | _ => false

/-- The server state shared across connection handlers: the Session Table
`self.sessions` (token keyed usernames) and the backing `users.json` file. -/
structure ServerState where
  sessions : List (String × String)
  file : FileContent

/-- One received line, after `json.loads`: either malformed JSON (the
`JSONDecodeError` branch) or a decoded top-level JSON object.  (Lines whose
JSON is a non-object toplevel are outside this model.) -/
inductive InLine where
  | malformed
  | cmd (fields : List (String × JValue))

/-- The value placed in the `messages` field of a fetch response: a list of
message views, Python `False` (missing user), or — as `_read_unread_messages`
actually does — a whole account record. -/
inductive Payload where
  | views (vs : List MsgView)
  | falseVal
  | account (a : Account)

/-- The response object written back (server.py lines 268-275):
`fetched` when `direct_message_read` is set, `posted` when
`direct_message_sent` is set, `okMsg` for a plain `ok` (carries
`current_user_token`), `errMsg` otherwise. -/
inductive Response where
  | fetched (status : String) (payload : Payload)
  | posted (status : String) (message : String)
  | okMsg (message : String) (token : Option String)
  | errMsg (message : String)

/-- Outcome of handling one received line: a response is written and the
loop continues with the given connection token and server state, or an
uncaught exception aborts the handler loop (`except` at line 280), after
which the socket is closed with the Session Table untouched. -/
inductive Outcome where
  | reply (resp : Response) (token : Option String) (srv : ServerState)
  | crash (srv : ServerState)

/-- One iteration of `DSUServer.handle_client`'s request loop (server.py
lines 154-277) on a decoded line.  `tok` is the connection's
`current_user_token`; `freshTok` is the value `generate_token()` returns on
this iteration and `now` the numeric value of
`str(datetime.now().timestamp())` — both are nondeterministic in the source
and therefore inputs here. -/
def handle_client_line (srv : ServerState) (tok : Option String) (line : InLine)
    (freshTok : String) (now : Rat) : Outcome :=
  match line with
  | .malformed => .reply (.errMsg "Incorrectly formatted JSON message.") tok srv
  | .cmd fields =>
    match assocGet fields "authenticate" with
    | some av =>
      if fields.length ≠ 1 then
        .reply (.errMsg "Incorrectly formatted authenticate command.") tok srv
      else
        match pyLen av with
        | none => .crash srv
        | some n =>
          if n > 2 then
            .reply (.errMsg "Extra fields provided to authenticate command object.") tok srv
          else
            match pyAll2 av with
            | none => .crash srv
            | some false =>
              .reply (.errMsg "Missing required fields for authenticate command object.") tok srv
            | some true =>
              if tokenTruthy tok then
                .reply (.errMsg "User already authenticated on the active session.") tok srv
              else
                match av with
                | .obj afs =>
                  match assocGet afs "username", assocGet afs "password" with
                  | some (.str uname), some pv =>
                    match get_or_create_new_user srv.file uname pv with
                    | none => .crash srv
                    | some (file', fetched) =>
                      match fetched with
                      | none =>
                        .reply
                          (.okMsg ("Welcome to ICS32 Distributed Social, " ++ uname ++ "!")
                            (some freshTok))
                          (some freshTok)
                          { sessions := assocSet srv.sessions freshTok uname, file := file' }
                      | some acct =>
                        if jBeq acct.password pv then
                          .reply (.okMsg ("Welcome back, " ++ uname ++ "!") (some freshTok))
                            (some freshTok)
                            { sessions := assocSet srv.sessions freshTok uname, file := file' }
                        else
                          .reply (.errMsg ("Incorrect password for the user " ++ uname)) none
                            { srv with file := file' }
                  -- a non-string `username` value is outside the model
                  | some _, some _ => .crash srv
                  -- unreachable: both keys are present by the check above
                  | _, _ => .crash srv
                -- `TypeError`: subscripting a non-dict `authenticate` value
                | _ => .crash srv
    | none =>
      match assocGet fields "directmessage" with
      | some dmv =>
        if (assocGet fields "token").isNone then
          .reply (.errMsg "Missing token.") tok srv
        else if fields.length ≠ 2 then
          .reply (.errMsg "Incorrectly formatted directmessage command.") tok srv
        else
          match dmv with
          | .obj dfs =>
            if (assocGet dfs "recipient").isNone || (assocGet dfs "message").isNone then
              .reply (.errMsg "Missing required fields for direct message (recipient, message).")
                tok srv
            else
              let tokenV := (assocGet fields "token").getD .null
              if pyEqTok tokenV tok && sessionsHasB tokenV srv.sessions then
                match tokenV with
                | .str ts =>
                  match assocGet srv.sessions ts with
                  | some currentUser =>
                    let mv := (assocGet dfs "message").getD .null
                    let content := if jTruthy mv then mv else (assocGet dfs "entry").getD (.str "")
                    match send_message srv.file content currentUser
                        (jStr? ((assocGet dfs "recipient").getD .null)) now with
                    | none => .crash srv
                    | some (file', true) =>
                      .reply (.posted "ok" "Direct message sent") tok { srv with file := file' }
                    | some (file', false) =>
                      .reply
                        (.posted "error" "Unable to send direct message. Recipient may not exist.")
                        tok { srv with file := file' }
                  -- unreachable: the gate checked table membership
                  | none => .crash srv
                -- unreachable: the gate only passes string tokens here
                | _ => .crash srv
              else
                .reply (.errMsg "Invalid user token.") tok srv
          | _ =>
            .reply (.errMsg "Missing required fields for direct message (recipient, message).")
              tok srv
      | none =>
        match assocGet fields "fetch" with
        | some args =>
          match assocGet fields "token" with
          -- KeyError: 'token' (line 239) — uncaught, aborts the handler loop
          | none => .crash srv
          | some tokenV =>
            match args with
            | .str "all" =>
              if pyEqTok tokenV tok && sessionsHasB tokenV srv.sessions then
                match tokenV with
                | .str ts =>
                  match assocGet srv.sessions ts with
                  | some currentUser =>
                    match read_all_messages srv.file currentUser with
                    | none => .crash srv
                    | some (file', some vs) =>
                      .reply (.fetched "ok" (.views vs)) tok { srv with file := file' }
                    | some (file', none) =>
                      .reply (.fetched "ok" .falseVal) tok { srv with file := file' }
                  | none => .crash srv
                | _ => .crash srv
              else .reply (.errMsg "Invalid user token.") tok srv
            | .str "unread" =>
              if pyEqTok tokenV tok && sessionsHasB tokenV srv.sessions then
                match tokenV with
                | .str ts =>
                  match assocGet srv.sessions ts with
                  | some currentUser =>
                    match read_unread_messages srv.file currentUser with
                    | none => .crash srv
                    | some (file', .account a) =>
                      .reply (.fetched "ok" (.account a)) tok { srv with file := file' }
                    | some (file', .falseVal) =>
                      .reply (.fetched "ok" .falseVal) tok { srv with file := file' }
                  | none => .crash srv
                | _ => .crash srv
              else .reply (.errMsg "Invalid user token.") tok srv
            | _ => .reply (.errMsg "Invalid argument for fetch field.") tok srv
        | none => .reply (.errMsg "Invalid command.") tok srv

/-- Lines 278-279 of `handle_client`: executed only when the `while` loop
ends normally (peer closed the socket / empty read), *not* when an
exception lands in the `except` clause — `if current_user_token and
current_user_token in self.sessions: del self.sessions[current_user_token]`. -/
def cleanup_on_clean_exit (srv : ServerState) (tok : Option String) : ServerState :=
  match tok with
  | some t =>
    if tokenTruthy (some t) && (assocGet srv.sessions t).isSome then
      { srv with sessions := assocDel srv.sessions t }
    else srv
  | none => srv

/-- A decoded request variant (§4.1 of the spec: authenticate, send, fetch). -/
inductive Request where
  | auth (username password : String)
  | send (token recipient message : String)
  | fetch (token ftype : String)
  deriving DecidableEq, Repr

/-- `ds_protocol.format_auth_message(username, password)` (lines 23-39): the
JSON object the emitted line encodes. -/
def format_auth_message (username password : String) : JValue :=
  .obj [("authenticate",
    .obj [("username", .str username), ("password", .str password)])]

/-- `ds_protocol.format_direct_message(token, recipient, message)` — the
committed file holds an *unresolved git merge conflict* at lines 56-61, so
this is the HEAD side of that conflict: the body is sent under the
`"message"` key ("Changed from 'entry' to 'message' to match server
expectation").  `now` is the `time.time()` value placed in `timestamp`. -/
def format_direct_message_head (token recipient message : String) (now : Rat) : JValue :=
  .obj [("token", .str token),
        ("directmessage",
          .obj [("message", .str message), ("recipient", .str recipient),
                ("timestamp", .num now)])]

/-- The other (parent) side of the same unresolved merge conflict in
`ds_protocol.format_direct_message` (line 60): the body is sent under the
`"entry"` key. -/
def format_direct_message_parent (token recipient message : String) (now : Rat) : JValue :=
  .obj [("token", .str token),
        ("directmessage",
          .obj [("entry", .str message), ("recipient", .str recipient),
                ("timestamp", .num now)])]

/-- `ds_protocol.format_fetch_request(token, fetch_type)` (lines 69-88):
`none` models the `DSPProtocolError` raised for a fetch type other than
`'all'`/`'unread'`. -/
def format_fetch_request (token ftype : String) : Option JValue :=
  if ftype = "all" ∨ ftype = "unread" then
    some (.obj [("token", .str token), ("fetch", .str ftype)])
  else none

/-- Modelled from the spec: the codec's `decode_request(line) -> Request
variant` appears in §4.1 but is missing from the sources (`ds_protocol.py`
only decodes *responses*, via `extract_json`; the server decodes requests
inline).  Per §4.1: an authenticate line has exactly the one top-level key
with exactly the `username`/`password` fields; a send line has exactly the
two top-level keys `token`/`directmessage` and the payload must contain
both `recipient` and `message` (extra payload fields, such as the encoder's
`timestamp`, are tolerated, as in the server); a fetch line has `token` and
`fetch` equal to `"all"` or `"unread"`.  Anything else fails to decode. -/
def decode_request (v : JValue) : Option Request :=
  match v with
  | .obj fields =>
    match assocGet fields "authenticate" with
    | some (.obj afs) =>
      if fields.length = 1 ∧ afs.length = 2 then
        match assocGet afs "username", assocGet afs "password" with
        | some (.str u), some (.str p) => some (.auth u p)
        | _, _ => none
      else none
    | some _ => none
    | none =>
      match assocGet fields "directmessage" with
      | some (.obj dfs) =>
        if fields.length = 2 then
          match assocGet fields "token", assocGet dfs "recipient",
              assocGet dfs "message" with
          | some (.str t), some (.str r), some (.str m) => some (.send t r m)
          | _, _, _ => none
        else none
      | some _ => none
      | none =>
        match assocGet fields "fetch", assocGet fields "token" with
        | some (.str ft), some (.str t) =>
          if (ft = "all" ∨ ft = "unread") ∧ fields.length = 2 then
            some (.fetch t ft)
          else none
        | _, _ => none
  | _ => none

instance : IsTotal MsgView (fun a b => a.timestamp ≤ b.timestamp) :=
  ⟨fun a b => le_total a.timestamp b.timestamp⟩

instance : IsTrans MsgView (fun a b => a.timestamp ≤ b.timestamp) :=
  ⟨fun _ _ _ hab hbc => le_trans hab hbc⟩

/-- C4 helper: the record appended to the sender's mailbox. -/
def sentRecord (e : JValue) (r : String) (t : Rat) : StoredMsg :=
  { body := e, counterparty := r, fromPeer := false, timestamp := t, status := .sent }

/-- C4 helper: the record appended to the recipient's mailbox. -/
def unreadRecord (e : JValue) (u : String) (t : Rat) : StoredMsg :=
  { body := e, counterparty := u, fromPeer := true, timestamp := t, status := .unread }

/-- Store used to exercise fetch-unread: `bob` holds one unread message from
`alice` with timestamp 5. -/
def storeC2 : UserStore :=
  [("alice", { password := .str "p1", messages := [] }),
   ("bob", { password := .str "p2", messages :=
      [{ body := .str "hello", counterparty := "alice", fromPeer := true,
         timestamp := 5, status := .unread }] })]

/-- Store used to exercise the file-state invariant: `dave` holds one unread
message from `carol`. -/
def storeC3 : UserStore :=
  [("carol", { password := .str "pc", messages := [] }),
   ("dave", { password := .str "pd", messages :=
      [{ body := .str "hi", counterparty := "carol", fromPeer := true,
         timestamp := 7, status := .unread }] })]

/-- The authenticate request line carrying a username and a password. -/
def authLine (uname pw : String) : InLine :=
  .cmd [("authenticate", .obj [("username", .str uname), ("password", .str pw)])]

/-- Concrete server state: one authenticated connection `T1 -> alice`. -/
def srvC7 : ServerState :=
  ⟨[("T1", "alice")], .json [("alice", { password := .str "p1", messages := [] })]⟩

/-- Store with accounts `alice` and `bob`, both with empty mailboxes. -/
def usersW4 : UserStore :=
  [("alice", { password := .str "pa", messages := [] }),
   ("bob", { password := .str "pb", messages := [] })]

/-- `eve`'s account: three unread messages stored with timestamps 3, 1, 2. -/
def acctEve : Account :=
  { password := .str "pe", messages :=
    [{ body := .str "a", counterparty := "alice", fromPeer := true,
       timestamp := 3, status := .unread },
     { body := .str "b", counterparty := "alice", fromPeer := true,
       timestamp := 1, status := .unread },
     { body := .str "c", counterparty := "alice", fromPeer := true,
       timestamp := 2, status := .unread }] }

/-- Store with the single account `wes` (empty mailbox). -/
def usersW8 : UserStore := [("wes", { password := .str "pw", messages := [] })]

/-- Store with the single account `xan`, holding one unread message. -/
def usersW10 : UserStore :=
  [("xan", { password := .str "px", messages :=
    [{ body := .str "yo", counterparty := "wes", fromPeer := true,
       timestamp := 4, status := .unread }] })]

theorem assocGet_cons (k' : String) (v : α) (t : List (String × α)) (k : String) :
    assocGet ((k', v) :: t) k = if k' = k then some v else assocGet t k := by
  by_cases h : k' = k <;> simp [assocGet, List.find?_cons, h]

theorem assocGet_assocSet_self (l : List (String × α)) (k : String) (v : α) :
    assocGet (assocSet l k v) k = some v := by
  induction l with
  | nil => simp [assocSet, assocGet_cons]
  | cons p t ih =>
    obtain ⟨k', v'⟩ := p
    by_cases h : k' = k <;> simp [assocSet, h, assocGet_cons, ih]

theorem assocGet_assocSet_ne (l : List (String × α)) (k : String) (v : α)
    (k' : String) (h : k' ≠ k) :
    assocGet (assocSet l k v) k' = assocGet l k' := by
  induction l with
  | nil => simp [assocSet, assocGet_cons, assocGet, Ne.symm h]
  | cons p t ih =>
    obtain ⟨k'', v''⟩ := p
    by_cases hk : k'' = k
    · subst hk; simp [assocSet, assocGet_cons, h, Ne.symm h]
    · simp [assocSet, hk, assocGet_cons, ih]

/-- Claim C4: `send` returns false and leaves the store (hence every mailbox
and the file) unchanged when the sender or the recipient account is missing;
when both exist it returns true and appends exactly one `sent` record to the
sender's mailbox and exactly one `unread` record to the recipient's, leaving
every other account untouched, all inside the one critical section the lock
provides. -/
theorem send_requires_both_accounts
    (users : UserStore) (e : JValue) (u r : String) (t : Rat) :
    ((assocGet users u = none ∨ assocGet users r = none) →
      send_message (.json users) e u (some r) t = some (.json users, false)) ∧
    (∀ su ru, assocGet users u = some su → assocGet users r = some ru → u ≠ r →
      ∃ users',
        send_message (.json users) e u (some r) t = some (.json users', true) ∧
        assocGet users' u =
          some { su with messages := su.messages ++ [sentRecord e r t] } ∧
        assocGet users' r =
          some { ru with messages := ru.messages ++ [unreadRecord e u t] } ∧
        (∀ w, w ≠ u → w ≠ r → assocGet users' w = assocGet users w)) ∧
    (∀ su, assocGet users u = some su → u = r →
      ∃ users',
        send_message (.json users) e u (some r) t = some (.json users', true) ∧
        assocGet users' u =
          some { su with messages :=
            su.messages ++ [sentRecord e r t] ++ [unreadRecord e u t] } ∧
        (∀ w, w ≠ u → assocGet users' w = assocGet users w)) := by
  refine ⟨?_, ?_, ?_⟩
  · rintro (h | h)
    · simp [send_message, h]
    · cases hu : assocGet users u with
      | none => simp [send_message, hu]
      | some su => simp [send_message, hu, h]
  · rintro su ru hsu hru hne
    refine ⟨assocSet (assocSet users u
        { su with messages := su.messages ++ [sentRecord e r t] }) r
        { ru with messages := ru.messages ++ [unreadRecord e u t] },
      ?_, ?_, ?_, ?_⟩
    · simp only [send_message, hsu, Option.some_bind, hru,
        assocGet_assocSet_ne _ _ _ _ (Ne.symm hne), sentRecord, unreadRecord]
    · rw [assocGet_assocSet_ne _ _ _ _ hne, assocGet_assocSet_self]
    · rw [assocGet_assocSet_self]
    · intro w hwu hwr
      rw [assocGet_assocSet_ne _ _ _ _ hwr, assocGet_assocSet_ne _ _ _ _ hwu]
  · rintro su hsu rfl
    refine ⟨assocSet (assocSet users u
        { su with messages := su.messages ++ [sentRecord e u t] }) u
        { su with messages := su.messages ++ [sentRecord e u t] ++ [unreadRecord e u t] },
      ?_, ?_, ?_⟩
    · simp only [send_message, hsu, Option.some_bind, assocGet_assocSet_self, sentRecord, unreadRecord]
    · rw [assocGet_assocSet_self]
    · intro w hwu
      rw [assocGet_assocSet_ne _ _ _ _ hwu, assocGet_assocSet_ne _ _ _ _ hwu]

/-- Claim C5: for an existing user, fetch-all returns a view of every stored
message, sorted ascending by numeric timestamp, and writes back the mailbox
with every currently-unread message marked read — the status of each record
becomes `read` exactly when it was `unread`, no record reverts from read to
unread, nothing else about a record or about other users changes. -/
theorem fetch_all_sorted_and_marks_read
    (users : UserStore) (uname : String) (acct : Account)
    (h : assocGet users uname = some acct) :
    ∃ out acct',
      read_all_messages (.json users) uname =
        some (.json (assocSet users uname acct'), some out) ∧
      out.Perm (acct.messages.map viewOf) ∧
      List.Sorted (fun a b : MsgView => a.timestamp ≤ b.timestamp) out ∧
      acct'.password = acct.password ∧
      acct'.messages.length = acct.messages.length ∧
      (∀ i (hi : i < acct.messages.length) (hi' : i < acct'.messages.length),
        acct'.messages[i].body = acct.messages[i].body ∧
        acct'.messages[i].counterparty = acct.messages[i].counterparty ∧
        acct'.messages[i].fromPeer = acct.messages[i].fromPeer ∧
        acct'.messages[i].timestamp = acct.messages[i].timestamp ∧
        acct'.messages[i].status =
          (if acct.messages[i].status = .unread then .read else acct.messages[i].status)) ∧
      (∀ w, w ≠ uname → assocGet (assocSet users uname acct') w = assocGet users w) := by
  refine ⟨sortViews (acct.messages.map viewOf),
    { acct with messages := acct.messages.map markRead1 }, ?_, ?_, ?_, rfl, by simp, ?_, ?_⟩
  · simp [read_all_messages, h]
  · simpa [sortViews] using
      List.perm_insertionSort (fun a b : MsgView => a.timestamp ≤ b.timestamp)
        (acct.messages.map viewOf)
  · simpa [sortViews] using
      List.sorted_insertionSort (fun a b : MsgView => a.timestamp ≤ b.timestamp)
        (acct.messages.map viewOf)
  · intro i hi hi'
    simp only [List.getElem_map, markRead1]
    split <;> simp_all
  · intro w hw
    exact assocGet_assocSet_ne _ _ _ _ hw

/-- Claim C2 is refuted by the code: fetch-unread on `bob`, who has exactly
one unread message, does not return the list of unread views — it returns
the whole account record of `bob` and truncates the store file to zero
bytes, so the immediately repeated fetch-unread raises `JSONDecodeError`
rather than returning zero messages. -/
theorem fetch_unread_returns_record_and_truncates :
    read_unread_messages (.json storeC2) "bob" =
      some (.empty, .account { password := .str "p2", messages :=
        [{ body := .str "hello", counterparty := "alice", fromPeer := true,
           timestamp := 5, status := .read }] }) ∧
    read_unread_messages FileContent.empty "bob" = none := ⟨rfl, rfl⟩

/-- Claim C3 is refuted by the code: after a fetch-unread on the existing
user `dave` the backing file is empty, not a complete JSON document, and
every subsequent store operation on the empty file raises on `json.load`. -/
theorem store_file_left_truncated :
    (read_unread_messages (.json storeC3) "dave").map Prod.fst =
      some FileContent.empty ∧
    (∀ u, read_all_messages FileContent.empty u = none) ∧
    (∀ u pw, get_or_create_new_user FileContent.empty u pw = none) ∧
    (∀ e u r t, send_message FileContent.empty e u r t = none) ∧
    (∀ u, read_unread_messages FileContent.empty u = none) :=
  ⟨rfl, fun _ => rfl, fun _ _ => rfl, fun _ _ _ _ => rfl, fun _ => rfl⟩

/-- Claim C10: a fetch-unread request with a valid token answers `ok` with
the `messages` field holding the user's entire stored account record — the
plaintext password and the raw status-tagged message list (statuses already
flipped to read in memory) — not a list of unread-message views; the store
file is left truncated. -/
theorem fetch_unread_response_contains_account
    (sessions : List (String × String)) (users : UserStore) (T uname : String)
    (acct : Account) (ft : String) (now : Rat)
    (hsess : assocGet sessions T = some uname)
    (huser : assocGet users uname = some acct) :
    handle_client_line ⟨sessions, .json users⟩ (some T)
        (.cmd [("token", .str T), ("fetch", .str "unread")]) ft now =
      .reply
        (.fetched "ok" (.account { acct with messages := acct.messages.map markRead1 }))
        (some T) ⟨sessions, .empty⟩ := by
  have h1 : assocGet [("token", JValue.str T), ("fetch", JValue.str "unread")]
      "authenticate" = none := rfl
  have h2 : assocGet [("token", JValue.str T), ("fetch", JValue.str "unread")]
      "directmessage" = none := rfl
  have h3 : assocGet [("token", JValue.str T), ("fetch", JValue.str "unread")]
      "fetch" = some (.str "unread") := rfl
  have h4 : assocGet [("token", JValue.str T), ("fetch", JValue.str "unread")]
      "token" = some (.str T) := rfl
  simp [handle_client_line, h1, h2, h3, h4, pyEqTok, sessionsHasB, hsess, huser,
    read_unread_messages]

theorem assocGet_assocDel (l : List (String × α)) (k : String) :
    assocGet (assocDel l k) k = none := by
  induction l with
  | nil => rfl
  | cons p t ih =>
    obtain ⟨k', v'⟩ := p
    by_cases h : k' = k <;> simp [assocDel, h, assocGet_cons, ih] <;>
      simpa [assocDel] using ih

/-- Claim C1: on an unauthenticated connection with a parseable store file,
an authenticate request carrying a username and a password auto-registers an
unseen username (persisting the new account), binds the freshly generated
token to the username in the Session Table, and replies `ok` with that
token; a known username with a matching password gets the same treatment
with a `Welcome back` message; and every authenticate request produces a
reply — the handler neither crashes nor closes the connection.  The missing
Mailbox Store operation is `get_or_create_new_user`, modelled from the
spec. -/
theorem authenticate_request_handling
    (users : UserStore) (sessions : List (String × String))
    (uname pw ft : String) (now : Rat) :
    (assocGet users uname = none →
      handle_client_line ⟨sessions, .json users⟩ none (authLine uname pw) ft now =
        .reply
          (.okMsg ("Welcome to ICS32 Distributed Social, " ++ uname ++ "!") (some ft))
          (some ft)
          ⟨assocSet sessions ft uname,
           .json (assocSet users uname { password := .str pw, messages := [] })⟩) ∧
    (∀ acct, assocGet users uname = some acct → acct.password = .str pw →
      handle_client_line ⟨sessions, .json users⟩ none (authLine uname pw) ft now =
        .reply (.okMsg ("Welcome back, " ++ uname ++ "!") (some ft)) (some ft)
          ⟨assocSet sessions ft uname, .json users⟩) ∧
    (∃ resp tk srv', handle_client_line ⟨sessions, .json users⟩ none
        (authLine uname pw) ft now = .reply resp tk srv') := by
  refine ⟨?_, ?_, ?_⟩
  · intro h
    simp [handle_client_line, authLine, pyLen, pyAll2, pyContainsKey, tokenTruthy,
      get_or_create_new_user, h, assocGet_cons]
  · intro acct hu hpw
    simp [handle_client_line, authLine, pyLen, pyAll2, pyContainsKey, tokenTruthy,
      get_or_create_new_user, hu, hpw, jBeq, assocGet_cons]
  · cases hu : assocGet users uname with
    | none =>
      refine ⟨.okMsg ("Welcome to ICS32 Distributed Social, " ++ uname ++ "!") (some ft),
        some ft,
        ⟨assocSet sessions ft uname,
         .json (assocSet users uname { password := .str pw, messages := [] })⟩, ?_⟩
      simp [handle_client_line, authLine, pyLen, pyAll2, pyContainsKey, tokenTruthy,
        get_or_create_new_user, hu, assocGet_cons]
    | some acct =>
      cases hb : jBeq acct.password (.str pw) with
      | true =>
        refine ⟨.okMsg ("Welcome back, " ++ uname ++ "!") (some ft), some ft,
          ⟨assocSet sessions ft uname, .json users⟩, ?_⟩
        simp [handle_client_line, authLine, pyLen, pyAll2, pyContainsKey, tokenTruthy,
          get_or_create_new_user, hu, hb, assocGet_cons]
      | false =>
        refine ⟨.errMsg ("Incorrect password for the user " ++ uname), none,
          ⟨sessions, .json users⟩, ?_⟩
        simp [handle_client_line, authLine, pyLen, pyAll2, pyContainsKey, tokenTruthy,
          get_or_create_new_user, hu, hb, assocGet_cons]

/-- Claim C6 is refuted by the code: a fetch request whose JSON object has
no `token` key does not produce an error response — line 239 raises
`KeyError`, which the blanket `except` turns into handler termination and a
closed socket, whatever the connection state. -/
theorem fetch_missing_token_crashes (srv : ServerState) (tok : Option String)
    (ft : String) (now : Rat) :
    handle_client_line srv tok (.cmd [("fetch", .str "all")]) ft now = .crash srv := rfl

/-- Claim C9: decode-encode round trips hold for the authenticate and fetch
request shapes and for the HEAD side of the unresolved merge conflict inside
`format_direct_message`; the committed parent side encodes the body under
`entry`, which request decoding rejects, so the send variant does not round
trip (and the conflicted `ds_protocol.py` does not even parse as Python).
`decode_request` is modelled from the spec. -/
theorem request_round_trip_status :
    (∀ u p, decode_request (format_auth_message u p) = some (.auth u p)) ∧
    (∀ t r m now, decode_request (format_direct_message_head t r m now) =
      some (.send t r m)) ∧
    (∀ t, (format_fetch_request t "all").bind decode_request =
      some (.fetch t "all")) ∧
    (∀ t, (format_fetch_request t "unread").bind decode_request =
      some (.fetch t "unread")) ∧
    decode_request (format_direct_message_parent "T1" "bob" "hello" 5) = none :=
  ⟨fun _ _ => rfl, fun _ _ _ _ => rfl, fun _ => rfl, fun _ => rfl, rfl⟩

/-- Claim C7 counterexample: a handler that terminates through an uncaught
exception — here a fetch request without a token — leaves its session token
`T1` bound in the Session Table, so the table does hold an entry for a
connection that is no longer active. -/
theorem session_survives_error_termination :
    handle_client_line srvC7 (some "T1") (.cmd [("fetch", .str "all")]) "T2" 0 =
      .crash srvC7 ∧
    assocGet srvC7.sessions "T1" = some "alice" := ⟨rfl, rfl⟩

/-- Claim C7 as amended: the session is removed from the Session Table only
when the receive loop ends normally (peer closed the socket cleanly); every
crash outcome of the handler leaves the Session Table exactly as it was. -/
theorem session_cleanup_semantics
    (sessions : List (String × String)) (file : FileContent) (t : String)
    (h : t ≠ "") :
    assocGet (cleanup_on_clean_exit ⟨sessions, file⟩ (some t)).sessions t = none ∧
    cleanup_on_clean_exit ⟨sessions, file⟩ none = ⟨sessions, file⟩ ∧
    (∀ srv tok line ft now srv',
      handle_client_line srv tok line ft now = .crash srv' →
        srv'.sessions = srv.sessions) := by
  refine ⟨?_, rfl, ?_⟩
  · unfold cleanup_on_clean_exit
    cases hs : assocGet sessions t with
    | none => simp [tokenTruthy, h, hs]
    | some u => simp [tokenTruthy, h, hs, assocGet_assocDel]
  · intro srv tok line ft now srv' hcl
    cases line with
    | malformed => simp [handle_client_line] at hcl
    | cmd fields =>
      simp only [handle_client_line] at hcl
      repeat' split at hcl
      all_goals simp at hcl
      all_goals (subst hcl; rfl)

theorem gate_iff (tv : JValue) (tok : Option String)
    (sessions : List (String × String)) :
    (pyEqTok tv tok && sessionsHasB tv sessions) = true ↔
      ∃ s u, tv = JValue.str s ∧ tok = some s ∧ assocGet sessions s = some u := by
  constructor
  · intro h
    rw [Bool.and_eq_true] at h
    obtain ⟨h1, h2⟩ := h
    cases tv with
    | str s =>
      cases tok with
      | none => simp [pyEqTok] at h1
      | some t =>
        simp only [pyEqTok, beq_iff_eq] at h1
        subst h1
        cases hu : assocGet sessions s with
        | none => simp [sessionsHasB, hu] at h2
        | some u => exact ⟨s, u, rfl, rfl, hu⟩
    | null => simp [sessionsHasB] at h2
    | num q => simp [pyEqTok] at h1
    | bool b => simp [pyEqTok] at h1
    | arr xs => simp [pyEqTok] at h1
    | obj fs => simp [pyEqTok] at h1
  · rintro ⟨s, u, rfl, rfl, hu⟩
    simp [pyEqTok, sessionsHasB, hu]

theorem send_message_json_isSome (users : UserStore) (e : JValue) (u r : String)
    (t : Rat) : (send_message (.json users) e u (some r) t).isSome := by
  unfold send_message
  cases hu : assocGet users u with
  | none => simp [hu]
  | some su =>
    cases hr : assocGet users r with
    | none => simp [hu, hr]
    | some ru =>
      by_cases hru : r = u
      · subst hru
        simp [hu, hr, assocGet_assocSet_self]
      · simp [hu, hr, assocGet_assocSet_ne _ _ _ _ hru]

theorem read_all_messages_json_isSome (users : UserStore) (u : String) :
    (read_all_messages (.json users) u).isSome := by
  unfold read_all_messages
  cases hu : assocGet users u <;> simp [hu]

theorem read_unread_messages_json_isSome (users : UserStore) (u : String) :
    (read_unread_messages (.json users) u).isSome := by
  unfold read_unread_messages
  cases hu : assocGet users u <;> simp [hu]

theorem assocGet_nil (k : String) : assocGet ([] : List (String × α)) k = none := rfl

/-- Claim C8: a send or fetch request is executed exactly when its token is
the string the connection remembered at authentication and that string is a
key of the Session Table; every other token — absent, of the wrong type, or
a valid token of another connection — gets the one constant reply
`Invalid user token.` with the state unchanged, so the response does not
reveal whether the presented token exists for another user. -/
theorem send_fetch_token_scoping
    (sessions : List (String × String)) (users : UserStore) (tok : Option String)
    (ft r m ftype : String) (now : Rat)
    (hft : ftype = "all" ∨ ftype = "unread") :
    (∀ tv, ¬ (∃ s u, tv = JValue.str s ∧ tok = some s ∧ assocGet sessions s = some u) →
      handle_client_line ⟨sessions, .json users⟩ tok
          (.cmd [("token", tv), ("fetch", .str ftype)]) ft now =
        .reply (.errMsg "Invalid user token.") tok ⟨sessions, .json users⟩ ∧
      handle_client_line ⟨sessions, .json users⟩ tok
          (.cmd [("token", tv),
            ("directmessage", .obj [("recipient", .str r), ("message", .str m)])]) ft now =
        .reply (.errMsg "Invalid user token.") tok ⟨sessions, .json users⟩) ∧
    (∀ s uname, tok = some s → assocGet sessions s = some uname →
      (∃ payload file', handle_client_line ⟨sessions, .json users⟩ tok
          (.cmd [("token", JValue.str s), ("fetch", .str ftype)]) ft now =
        .reply (.fetched "ok" payload) tok ⟨sessions, file'⟩) ∧
      (∃ st msg file', handle_client_line ⟨sessions, .json users⟩ tok
          (.cmd [("token", JValue.str s),
            ("directmessage", .obj [("recipient", .str r), ("message", .str m)])]) ft now =
        .reply (.posted st msg) tok ⟨sessions, file'⟩)) ∧
    (∀ tv1 tv2,
      ¬ (∃ s u, tv1 = JValue.str s ∧ tok = some s ∧ assocGet sessions s = some u) →
      ¬ (∃ s u, tv2 = JValue.str s ∧ tok = some s ∧ assocGet sessions s = some u) →
      handle_client_line ⟨sessions, .json users⟩ tok
          (.cmd [("token", tv1), ("fetch", .str ftype)]) ft now =
        handle_client_line ⟨sessions, .json users⟩ tok
          (.cmd [("token", tv2), ("fetch", .str ftype)]) ft now ∧
      handle_client_line ⟨sessions, .json users⟩ tok
          (.cmd [("token", tv1),
            ("directmessage", .obj [("recipient", .str r), ("message", .str m)])]) ft now =
        handle_client_line ⟨sessions, .json users⟩ tok
          (.cmd [("token", tv2),
            ("directmessage", .obj [("recipient", .str r), ("message", .str m)])]) ft now) := by
  have gate_false : ∀ tv : JValue,
      ¬ (∃ s u, tv = JValue.str s ∧ tok = some s ∧ assocGet sessions s = some u) →
      (pyEqTok tv tok && sessionsHasB tv sessions) = false := by
    intro tv hno
    cases hgb : (pyEqTok tv tok && sessionsHasB tv sessions) with
    | false => rfl
    | true => exact absurd ((gate_iff tv tok sessions).1 hgb) hno
  have reject : ∀ tv,
      ¬ (∃ s u, tv = JValue.str s ∧ tok = some s ∧ assocGet sessions s = some u) →
      handle_client_line ⟨sessions, .json users⟩ tok
          (.cmd [("token", tv), ("fetch", .str ftype)]) ft now =
        .reply (.errMsg "Invalid user token.") tok ⟨sessions, .json users⟩ ∧
      handle_client_line ⟨sessions, .json users⟩ tok
          (.cmd [("token", tv),
            ("directmessage", .obj [("recipient", .str r), ("message", .str m)])]) ft now =
        .reply (.errMsg "Invalid user token.") tok ⟨sessions, .json users⟩ := by
    intro tv hno
    have hg := gate_false tv hno
    constructor
    · rcases hft with rfl | rfl <;>
        simp [handle_client_line, assocGet_cons, assocGet_nil, hg]
    · simp [handle_client_line, assocGet_cons, assocGet_nil, hg]
  refine ⟨reject, ?_, ?_⟩
  · intro s uname hts hsess
    subst hts
    have hgt : (pyEqTok (JValue.str s) (some s) &&
        sessionsHasB (JValue.str s) sessions) = true := by
      simp [pyEqTok, sessionsHasB, hsess]
    constructor
    · rcases hft with rfl | rfl
      · obtain ⟨fb, hfb⟩ :=
          Option.isSome_iff_exists.mp (read_all_messages_json_isSome users uname)
        obtain ⟨file', res⟩ := fb
        cases res with
        | none =>
          exact ⟨.falseVal, file', by
            simp [handle_client_line, assocGet_cons, assocGet_nil, hgt, hsess, hfb]⟩
        | some vs =>
          exact ⟨.views vs, file', by
            simp [handle_client_line, assocGet_cons, assocGet_nil, hgt, hsess, hfb]⟩
      · obtain ⟨fb, hfb⟩ :=
          Option.isSome_iff_exists.mp (read_unread_messages_json_isSome users uname)
        obtain ⟨file', res⟩ := fb
        cases res with
        | falseVal =>
          exact ⟨.falseVal, file', by
            simp [handle_client_line, assocGet_cons, assocGet_nil, hgt, hsess, hfb]⟩
        | account a =>
          exact ⟨.account a, file', by
            simp [handle_client_line, assocGet_cons, assocGet_nil, hgt, hsess, hfb]⟩
    · obtain ⟨fb, hfb⟩ := Option.isSome_iff_exists.mp
        (send_message_json_isSome users
          (if jTruthy (JValue.str m) then JValue.str m else JValue.str "") uname r now)
      obtain ⟨file', b⟩ := fb
      cases b with
      | true =>
        exact ⟨"ok", "Direct message sent", file', by
          simp [handle_client_line, assocGet_cons, assocGet_nil, jStr?, hgt, hsess, hfb]⟩
      | false =>
        exact ⟨"error", "Unable to send direct message. Recipient may not exist.", file', by
          simp [handle_client_line, assocGet_cons, assocGet_nil, jStr?, hgt, hsess, hfb]⟩
  · intro tv1 tv2 h1 h2
    exact ⟨((reject tv1 h1).1).trans ((reject tv2 h2).1).symm,
      ((reject tv1 h1).2).trans ((reject tv2 h2).2).symm⟩

/-- Witness for C1 at concrete inputs: a fresh `alice`, a returning `bob`,
and an arbitrary `carol` request that still gets a reply. -/
theorem authenticate_request_handling_witness :
    handle_client_line ⟨[], .json []⟩ none (authLine "alice" "p1") "T1" 0 =
      .reply (.okMsg ("Welcome to ICS32 Distributed Social, " ++ "alice" ++ "!")
          (some "T1")) (some "T1")
        ⟨assocSet [] "T1" "alice",
         .json (assocSet [] "alice" { password := .str "p1", messages := [] })⟩ ∧
    handle_client_line
        ⟨[], .json [("bob", { password := .str "p2", messages := [] })]⟩ none
        (authLine "bob" "p2") "T2" 0 =
      .reply (.okMsg ("Welcome back, " ++ "bob" ++ "!") (some "T2")) (some "T2")
        ⟨assocSet [] "T2" "bob",
         .json [("bob", { password := .str "p2", messages := [] })]⟩ ∧
    (∃ resp tk srv', handle_client_line ⟨[], .json []⟩ none
        (authLine "carol" "p3") "T3" 0 = .reply resp tk srv') :=
  ⟨(authenticate_request_handling [] [] "alice" "p1" "T1" 0).1 rfl,
   (authenticate_request_handling [("bob", { password := .str "p2", messages := [] })]
      [] "bob" "p2" "T2" 0).2.1 _ rfl rfl,
   (authenticate_request_handling [] [] "carol" "p3" "T3" 0).2.2⟩

/-- Witness for C4 at concrete inputs: missing sender, missing recipient,
and a successful send from `alice` to `bob`. -/
theorem send_requires_both_accounts_witness :
    send_message (.json usersW4) (.str "x") "zed" (some "bob") 1 =
      some (.json usersW4, false) ∧
    send_message (.json usersW4) (.str "x") "alice" (some "zed") 1 =
      some (.json usersW4, false) ∧
    (∃ users', send_message (.json usersW4) (.str "hi") "alice" (some "bob") 2 =
        some (.json users', true) ∧
      assocGet users' "alice" =
        some { password := .str "pa", messages := [sentRecord (.str "hi") "bob" 2] } ∧
      assocGet users' "bob" =
        some { password := .str "pb", messages := [unreadRecord (.str "hi") "alice" 2] }) := by
  refine ⟨(send_requires_both_accounts usersW4 (.str "x") "zed" "bob" 1).1 (Or.inl rfl),
    (send_requires_both_accounts usersW4 (.str "x") "alice" "zed" 1).1 (Or.inr rfl), ?_⟩
  obtain ⟨users', h1, h2, h3, _⟩ :=
    (send_requires_both_accounts usersW4 (.str "hi") "alice" "bob" 2).2.1
      { password := .str "pa", messages := [] }
      { password := .str "pb", messages := [] } rfl rfl (by decide)
  exact ⟨users', h1, h2, h3⟩

/-- Witness for C5 on the mailbox of `eve`, stored timestamps [3, 1, 2]:
the claim applies, and the concrete result comes back ordered [1, 2, 3]
with every record marked read. -/
theorem fetch_all_sorted_and_marks_read_witness :
    assocGet [("eve", acctEve)] "eve" = some acctEve ∧
    (∃ out acct', read_all_messages (.json [("eve", acctEve)]) "eve" =
        some (.json (assocSet [("eve", acctEve)] "eve" acct'), some out) ∧
      out.Perm (acctEve.messages.map viewOf) ∧
      List.Sorted (fun a b : MsgView => a.timestamp ≤ b.timestamp) out) ∧
    read_all_messages (.json [("eve", acctEve)]) "eve" =
      some (.json [("eve", { password := .str "pe", messages :=
        [{ body := .str "a", counterparty := "alice", fromPeer := true,
           timestamp := 3, status := .read },
         { body := .str "b", counterparty := "alice", fromPeer := true,
           timestamp := 1, status := .read },
         { body := .str "c", counterparty := "alice", fromPeer := true,
           timestamp := 2, status := .read }] })],
        some [{ fromPeer := true, counterparty := "alice", body := .str "b", timestamp := 1 },
              { fromPeer := true, counterparty := "alice", body := .str "c", timestamp := 2 },
              { fromPeer := true, counterparty := "alice", body := .str "a", timestamp := 3 }]) := by
  refine ⟨rfl, ?_, rfl⟩
  obtain ⟨out, acct', h1, h2, h3, _⟩ :=
    fetch_all_sorted_and_marks_read [("eve", acctEve)] "eve" acctEve rfl
  exact ⟨out, acct', h1, h2, h3⟩

/-- Witness for the amended C7 at the concrete session table `T9 -> zoe`. -/
theorem session_cleanup_semantics_witness :
    ("T9" : String) ≠ "" ∧
    assocGet (cleanup_on_clean_exit ⟨[("T9", "zoe")], .json []⟩
      (some "T9")).sessions "T9" = none :=
  ⟨by decide, (session_cleanup_semantics [("T9", "zoe")] (.json []) "T9" (by decide)).1⟩

/-- Witness for C8: the wrong token `BAD` is rejected with the constant
error reply, and the right token `TW` executes the fetch. -/
theorem send_fetch_token_scoping_witness :
    handle_client_line ⟨[("TW", "wes")], .json usersW8⟩ (some "TW")
        (.cmd [("token", .str "BAD"), ("fetch", .str "all")]) "F" 0 =
      .reply (.errMsg "Invalid user token.") (some "TW")
        ⟨[("TW", "wes")], .json usersW8⟩ ∧
    (∃ payload file', handle_client_line ⟨[("TW", "wes")], .json usersW8⟩ (some "TW")
        (.cmd [("token", .str "TW"), ("fetch", .str "all")]) "F" 0 =
      .reply (.fetched "ok" payload) (some "TW") ⟨[("TW", "wes")], file'⟩) := by
  refine ⟨?_, ?_⟩
  · exact ((send_fetch_token_scoping [("TW", "wes")] usersW8 (some "TW")
      "F" "bob" "hi" "all" 0 (Or.inl rfl)).1 (.str "BAD") (by simp)).1
  · exact ((send_fetch_token_scoping [("TW", "wes")] usersW8 (some "TW")
      "F" "bob" "hi" "all" 0 (Or.inl rfl)).2.1 "TW" "wes" rfl rfl).1

/-- Witness for C10 at a concrete store: the full account record of `xan`,
with its password, lands in the `messages` field of the reply. -/
theorem fetch_unread_response_contains_account_witness :
    assocGet [("TX", "xan")] "TX" = some "xan" ∧
    (∃ a, assocGet usersW10 "xan" = some a) ∧
    handle_client_line ⟨[("TX", "xan")], .json usersW10⟩ (some "TX")
        (.cmd [("token", .str "TX"), ("fetch", .str "unread")]) "F" 0 =
      .reply (.fetched "ok" (.account { password := .str "px", messages :=
          [{ body := .str "yo", counterparty := "wes", fromPeer := true,
             timestamp := 4, status := .read }] })) (some "TX")
        ⟨[("TX", "xan")], .empty⟩ :=
  ⟨rfl, ⟨_, rfl⟩,
   fetch_unread_response_contains_account [("TX", "xan")] usersW10 "TX" "xan"
     { password := .str "px", messages :=
       [{ body := .str "yo", counterparty := "wes", fromPeer := true,
          timestamp := 4, status := .unread }] } "F" 0 rfl rfl⟩
